import Mathlib

/-!
# PerspectiveShifter — verification of the natural-language specification

A shallow embedding of the PerspectiveShifter web service (Python/Flask) in
Lean 4, together with proofs settling the frozen claims about it.

Embedding conventions:
* Python strings are Lean `String` (a list of unicode code points, matching
  CPython string semantics for `len`, indexing and per-code-point maps).
* Python `str.strip()` / `str.lower()` / `str.split` / `int(...)` are embedded
  below at ASCII fidelity (the whitespace set and the case map cover the ASCII
  range; every input appearing in the repository and in the claims is ASCII).
* `hashlib.sha256(...).hexdigest()` is embedded as a full executable SHA-256
  over the UTF-8 bytes of the input, exactly as CPython computes it.
* Python floats that only feed exact decimal arithmetic in the source
  (budget/cost configuration) are embedded as rationals; `int(x)` on a float
  is truncation toward zero.
* External effects (the OpenAI completion call, the SQLAlchemy database, the
  PIL renderer, wall-clock time) are oracles passed as explicit arguments;
  the embedded functions make the "did we call the external LLM" effect an
  explicit, observable field of their result.
-/

namespace PerspectiveShifter

/-! ## Python string primitives -/

/-- The ASCII whitespace characters recognised by CPython `str.strip()` /
`str.split()` (space, tab, newline, carriage return, vertical tab, form
feed). -/
def pyWhitespace (c : Char) : Bool :=
  c = ' ' || c = '\t' || c = '\n' || c = '\r' || c = '\x0b' || c = '\x0c'

/-- Python `str.strip()` on the underlying character list: drop whitespace from both
ends. -/
def pyStripList (l : List Char) : List Char :=
  ((l.dropWhile pyWhitespace).reverse.dropWhile pyWhitespace).reverse

/-- Embedding of Python `s.strip()`. -/
def pyStrip (s : String) : String :=
  String.mk (pyStripList s.data)

/-- The ASCII case map applied per character by Python `str.lower()`. -/
def lowerChar (c : Char) : Char :=
  if 'A' ≤ c && c ≤ 'Z' then Char.ofNat (c.toNat + 32) else c

/-- Embedding of Python `s.lower()` (per-code-point map; ASCII fidelity). -/
def pyLower (s : String) : String :=
  String.mk (s.data.map lowerChar)

/-- Does the string contain a character changed by `lower()` (an upper-case
letter)? -/
def hasUpper (s : String) : Bool :=
  s.data.any (fun c => lowerChar c != c)

/-- Embedding of `s.split(sep, 1)` for `sep = '_'`: split at the first underscore.
`none` models Python `'_' not in s`. -/
def splitOnce : List Char → Option (List Char × List Char)
  | [] => none
  | c :: t =>
    if c = '_' then some ([], t)
    else
      match splitOnce t with
      | none => none
      | some (a, b) => some (c :: a, b)

/-- Decimal digit value of a character, if it is a digit. -/
def digitVal (c : Char) : Option Nat :=
  if '0' ≤ c && c ≤ '9' then some (c.toNat - '0'.toNat) else none

/-- Accumulating decimal parse over a digit list; `none` on any non-digit. -/
def digitsValAux : List Char → Nat → Option Nat
  | [], acc => some acc
  | c :: t, acc =>
    match digitVal c with
    | none => none
    | some d => digitsValAux t (acc * 10 + d)

/-- Parse a non-empty all-digit list as a natural number. -/
def digitsVal : List Char → Option Nat
  | [] => none
  | l => digitsValAux l 0

/-- Sign handling of Python `int(...)` after stripping. -/
def pyIntCore : List Char → Option Int
  | '-' :: t => (digitsVal t).map (fun n => -(n : Int))
  | '+' :: t => (digitsVal t).map (fun n => (n : Int))
  | l => (digitsVal l).map (fun n => (n : Int))

/-- Embedding of Python `int(s)` on strings: strip whitespace, optional sign,
decimal digits; `none` models the `ValueError` raise. -/
def pyInt (s : String) : Option Int :=
  pyIntCore (pyStripList s.data)

/-- Embedding of Python list indexing `l[i]`: non-negative indices from the
front, negative indices from the end, `none` models the `IndexError` raise. -/
def pyIndex {α : Type} (l : List α) (i : Int) : Option α :=
  if 0 ≤ i then l.get? i.toNat
  else if -(l.length : Int) ≤ i then l.get? ((l.length : Int) + i).toNat
  else none

/-- Word counter for Python `s.split()` (maximal non-whitespace runs); the
boolean tracks whether the scan is inside a word. -/
def wordCountAux : List Char → Bool → Nat
  | [], _ => 0
  | c :: t, inWord =>
    if pyWhitespace c then wordCountAux t false
    else (if inWord then 0 else 1) + wordCountAux t true

/-- Embedding of `len(s.split())` — the number of whitespace-separated words. -/
def wordCount (s : String) : Nat :=
  wordCountAux s.data false

/-- Is `n` a prefix of `h`? (for substring search). -/
def listIsPref : List Char → List Char → Bool
  | [], _ => true
  | _ :: _, [] => false
  | a :: as, b :: bs => a = b && listIsPref as bs

/-- Embedding of Python `n in h` on strings: does `n` occur contiguously in
`h`? -/
def listInfixOf (n : List Char) : List Char → Bool
  | [] => listIsPref n []
  | c :: t => listIsPref n (c :: t) || listInfixOf n t

/-- Embedding of `int(a / b)` on numbers: the quotient a/b = (a.num * b.den)/(b.num * a.den)
truncated toward zero, the behaviour of Python `int()` (`Int.tdiv` is
T-rounding division). -/
def ratDivTrunc (a b : ℚ) : ℤ :=
  Int.tdiv (a.num * (b.den : ℤ)) (b.num * (a.den : ℤ))

/-! ## SHA-256 (`hashlib.sha256(...).hexdigest()` over UTF-8 bytes)

A complete executable SHA-256, FIPS 180-4, over byte lists (bytes are `Nat`
values below 256, words are `Nat` values below 2^32 kept reduced with explicit
`% 2^32`). -/

namespace Sha256

/-- The word modulus 2^32. -/
def wordMod : Nat := 4294967296

/-- Right rotation of a 32-bit word by `n` places. -/
def rotr (x n : Nat) : Nat :=
  ((x >>> n) ||| (x <<< (32 - n))) % wordMod

/-- Bitwise complement of a 32-bit word. -/
def wnot (x : Nat) : Nat := x ^^^ 4294967295

/-- The Ch function of FIPS 180-4. -/
def ch (x y z : Nat) : Nat := (x &&& y) ^^^ (wnot x &&& z)

/-- The Maj function of FIPS 180-4. -/
def maj (x y z : Nat) : Nat := (x &&& y) ^^^ (x &&& z) ^^^ (y &&& z)

/-- The Σ0 function of FIPS 180-4. -/
def bigSigma0 (x : Nat) : Nat := rotr x 2 ^^^ rotr x 13 ^^^ rotr x 22

/-- The Σ1 function of FIPS 180-4. -/
def bigSigma1 (x : Nat) : Nat := rotr x 6 ^^^ rotr x 11 ^^^ rotr x 25

/-- The σ0 function of FIPS 180-4. -/
def smallSigma0 (x : Nat) : Nat := rotr x 7 ^^^ rotr x 18 ^^^ (x >>> 3)

/-- The σ1 function of FIPS 180-4. -/
def smallSigma1 (x : Nat) : Nat := rotr x 17 ^^^ rotr x 19 ^^^ (x >>> 10)

/-- The 64 round constants of FIPS 180-4 (fractional parts of the cube roots
of the first 64 primes), written in decimal. -/
def K : List Nat :=
  [1116352408, 1899447441, 3049323471, 3921009573, 961987163,
   1508970993, 2453635748, 2870763221, 3624381080, 310598401,
   607225278, 1426881987, 1925078388, 2162078206, 2614888103,
   3248222580, 3835390401, 4022224774, 264347078, 604807628,
   770255983, 1249150122, 1555081692, 1996064986, 2554220882,
   2821834349, 2952996808, 3210313671, 3336571891, 3584528711,
   113926993, 338241895, 666307205, 773529912, 1294757372,
   1396182291, 1695183700, 1986661051, 2177026350, 2456956037,
   2730485921, 2820302411, 3259730800, 3345764771, 3516065817,
   3600352804, 4094571909, 275423344, 430227734, 506948616,
   659060556, 883997877, 958139571, 1322822218, 1537002063,
   1747873779, 1955562222, 2024104815, 2227730452, 2361852424,
   2428436474, 2756734187, 3204031479, 3329325298]

/-- The working state: eight 32-bit words. -/
structure St where
  a : Nat
  b : Nat
  c : Nat
  d : Nat
  e : Nat
  f : Nat
  g : Nat
  h : Nat

/-- Initial hash value H(0) of FIPS 180-4, written in decimal. -/
def h0 : St :=
  ⟨1779033703, 3144134277, 1013904242, 2773480762,
   1359893119, 2600822924, 528734635, 1541459225⟩

/-- One compression round with round constant `k` and schedule word `w`. -/
def round (s : St) (k w : Nat) : St :=
  let t1 := (s.h + bigSigma1 s.e + ch s.e s.f s.g + k + w) % wordMod
  let t2 := (bigSigma0 s.a + maj s.a s.b s.c) % wordMod
  ⟨(t1 + t2) % wordMod, s.a, s.b, s.c, (s.d + t1) % wordMod, s.e, s.f, s.g⟩

/-- The next message-schedule word from the previous sixteen (given most
recent first). -/
def nextWord (recent : List Nat) : Nat :=
  (smallSigma1 (recent.getD 1 0) + recent.getD 6 0 +
   smallSigma0 (recent.getD 14 0) + recent.getD 15 0) % wordMod

/-- Extend the (reversed, most recent first) schedule by `n` more words. -/
def extendRev (recent : List Nat) : Nat → List Nat
  | 0 => recent
  | n + 1 => extendRev (nextWord recent :: recent) n

/-- The 64-word message schedule from the sixteen words of one block. -/
def schedule (block : List Nat) : List Nat :=
  (extendRev block.reverse 48).reverse

/-- Compress one block (sixteen 32-bit words) into the chaining state. -/
def compress (hst : St) (block : List Nat) : St :=
  let s := ((schedule block).zip K).foldl (fun s p => round s p.2 p.1) hst
  ⟨(hst.a + s.a) % wordMod, (hst.b + s.b) % wordMod, (hst.c + s.c) % wordMod,
   (hst.d + s.d) % wordMod, (hst.e + s.e) % wordMod, (hst.f + s.f) % wordMod,
   (hst.g + s.g) % wordMod, (hst.h + s.h) % wordMod⟩

/-- Big-endian bytes of a value, `n` bytes wide. -/
def beBytes : Nat → Nat → List Nat
  | 0, _ => []
  | n + 1, v => beBytes n (v / 256) ++ [v % 256]

/-- SHA-256 padding: append `0x80`, zeros to 56 mod 64, then the bit length
as eight big-endian bytes. -/
def pad (msg : List Nat) : List Nat :=
  let l := msg.length
  let zeros := (119 - l % 64) % 64
  msg ++ 0x80 :: List.replicate zeros 0 ++ beBytes 8 (l * 8)

/-- Group four consecutive bytes into big-endian 32-bit words. -/
def toWords : List Nat → List Nat
  | b0 :: b1 :: b2 :: b3 :: t =>
    (((b0 * 256 + b1) * 256 + b2) * 256 + b3) :: toWords t
  | _ => []

/-- Split a word list into 16-word blocks: structural scan collecting the
current block in reverse in `acc` with `n` its length. -/
def toBlocksAux : List Nat → List Nat → Nat → List (List Nat)
  | [], acc, _ => if acc = [] then [] else [acc.reverse]
  | w :: t, acc, n =>
    if n = 15 then (w :: acc).reverse :: toBlocksAux t [] 0
    else toBlocksAux t (w :: acc) (n + 1)

/-- Split a word list into 16-word blocks. -/
def toBlocks (ws : List Nat) : List (List Nat) :=
  toBlocksAux ws [] 0

/-- Hex character of a value below 16. -/
def hexChar (n : Nat) : Char :=
  if n < 10 then Char.ofNat ('0'.toNat + n) else Char.ofNat ('a'.toNat + n - 10)

/-- Eight lowercase hex digits of a 32-bit word. -/
def wordHex (w : Nat) : List Char :=
  (beBytes 4 w).foldr (fun b acc => hexChar (b / 16) :: hexChar (b % 16) :: acc) []

/-- The SHA-256 hex digest of a byte list, exactly as
`hashlib.sha256(bytes).hexdigest()` computes it. -/
def sha256Hex (msg : List Nat) : String :=
  let fin := (toBlocks (toWords (pad msg))).foldl compress h0
  String.mk (wordHex fin.a ++ wordHex fin.b ++ wordHex fin.c ++ wordHex fin.d ++
             wordHex fin.e ++ wordHex fin.f ++ wordHex fin.g ++ wordHex fin.h)

end Sha256

/-- UTF-8 encoding of one code point (Python `str.encode()` per character). -/
def utf8Char (c : Char) : List Nat :=
  let n := c.toNat
  if n < 0x80 then [n]
  else if n < 0x800 then [0xc0 + n / 64, 0x80 + n % 64]
  else if n < 0x10000 then [0xe0 + n / 4096, 0x80 + n / 64 % 64, 0x80 + n % 64]
  else [0xf0 + n / 262144, 0x80 + n / 4096 % 64, 0x80 + n / 64 % 64, 0x80 + n % 64]

/-- Embedding of Python `s.encode()` — the UTF-8 bytes of a string. -/
def utf8Bytes (s : String) : List Nat :=
  s.data.foldr (fun c acc => utf8Char c ++ acc) []

/-- Embedding of `hashlib.sha256(s.encode()).hexdigest()`. -/
def sha256HexOfString (s : String) : String :=
  Sha256.sha256Hex (utf8Bytes s)

end PerspectiveShifter

namespace PerspectiveShifter

/-! ## src/openai_service.py — the Wisdom Generation Engine

The external completion call and the JSON decode are oracles: `LlmOutcome`
records whether the call threw, and otherwise the raw response text together
with the outcome of `json.loads` on it (`JsonDocOutcome`). Everything after
that point is embedded as the source computes it. -/

/-- A quote object as decoded from JSON: each of the four keys may be absent
(`validated_quotes` keeps only objects with all four present). -/
structure RawQuote where
  quote : Option String
  attribution : Option String
  perspective : Option String
  context : Option String

/-- A validated quote dictionary with all four string fields. -/
structure Quote where
  quote : String
  attribution : String
  perspective : String
  context : String
deriving DecidableEq

/-- Outcome of `json.loads(response_text)` plus the quotes-key presence test:
decode failure, missing top-level key, or the decoded quote list. -/
inductive JsonDocOutcome
  | decodeError
  | noQuotesKey
  | quotes (l : List RawQuote)

/-- Outcome of the external `client.chat.completions.create` call: either the
call threw (network, timeout, auth, ...) or it returned `text` whose JSON
decode behaves as `decoded` says. -/
inductive LlmOutcome
  | apiError
  | response (text : String) (decoded : JsonDocOutcome)

/-- The fixed fallback quotes of `get_fallback_quotes()`, verbatim. -/
def fallbackQuotes : List Quote :=
  [⟨"The only way to make sense out of change is to plunge into it, move with it, and join the dance.",
    "Alan Watts",
    "This wisdom reminds us that resistance to our current experience often creates more suffering than the experience itself.",
    "Watts, a philosopher who bridged Eastern and Western thought, spoke these words as he explored how to find peace within life\x27s constant flux during the cultural upheavals of the 1960s."⟩,
   ⟨"Everything can be taken from a man but one thing: the last of human freedoms - to choose one\x27s attitude in any given set of circumstances.",
    "Viktor Frankl",
    "Even in our most challenging moments, we retain the power to choose how we relate to our experience.",
    "Frankl discovered this truth while surviving Nazi concentration camps, realizing that inner freedom could never be taken away, even when everything else was lost."⟩]

/-- The per-quote validation step of `parse_json_response`: keep a quote only
when all four keys are present, stripping whitespace from each field. -/
def stripQuoteFields (r : RawQuote) : Option Quote :=
  match r.quote, r.attribution, r.perspective, r.context with
  | some q, some a, some p, some c => some ⟨pyStrip q, pyStrip a, pyStrip p, pyStrip c⟩
  | _, _, _, _ => none

/-- Embedding of `parse_json_response(response_text)`: empty body, decode
failure, missing `quotes` key or zero surviving quotes yield the fallback
list; otherwise the validated quotes truncated to three. -/
def parseJsonResponse (responseText : String) (decoded : JsonDocOutcome) : List Quote :=
  if responseText = "" then fallbackQuotes
  else
    match decoded with
    | .decodeError => fallbackQuotes
    | .noQuotesKey => fallbackQuotes
    | .quotes l =>
      if l.filterMap stripQuoteFields = [] then fallbackQuotes
      else (l.filterMap stripQuoteFields).take 3

/-- Embedding of `get_wisdom_quotes(user_input)`: a thrown external call
yields the fallback list, otherwise the parse of the response. The user input
only shapes the prompt, never the post-processing. -/
def getWisdomQuotes (outcome : LlmOutcome) (_userInput : String) : List Quote :=
  match outcome with
  | .apiError => fallbackQuotes
  | .response text decoded => parseJsonResponse text decoded

/-! ## src/lib/api/response_formatter.py — domain objects and validation -/

/-- The `WisdomQuote` value object. The creation timestamp
(`datetime.utcnow()` default) is wall-clock state; no embedded operation below
reads it, so it is omitted from the model. -/
structure WisdomQuote where
  quoteId : String
  quote : String
  attribution : String
  perspective : String
  context : String
  style : String
  processingTimeMs : Option Nat
deriving DecidableEq

/-- The image URL built from a composite quote id
(`https://app.vercel.app/api/v1/images/.../quote_id`). -/
def imageUrlOf (quoteId : String) : String :=
  "https://app.vercel.app/api/v1/images/" ++ quoteId

/-- The shape of an MCP content block: a type tag, the text, and the metadata
sidecar embedded as the association list of the dict literal in the source. -/
structure McpContent where
  typ : String
  text : String
  metadata : List (String × String)
deriving DecidableEq

/-- Embedding of `WisdomQuote.to_mcp_response()`. -/
def toMcpResponse (w : WisdomQuote) : McpContent :=
  { typ := "text"
    text := w.quote ++ "\n\n— " ++ w.attribution
    metadata := [("quote_id", w.quoteId), ("quote", w.quote),
                 ("attribution", w.attribution), ("perspective", w.perspective),
                 ("context", w.context), ("image_url", imageUrlOf w.quoteId)] }

/-- Embedding of `WisdomQuote.from_legacy_response`. -/
def fromLegacyResponse (legacy : Quote) (quoteId style : String)
    (processingTimeMs : Option Nat) : WisdomQuote :=
  ⟨quoteId, legacy.quote, legacy.attribution, legacy.perspective, legacy.context,
   style, processingTimeMs⟩

/-- A duck-typed request value as validation sees it: the key was absent, held
a string, or held a non-string value. -/
inductive PyInput
  | absent
  | str (s : String)
  | nonStr

/-- The too-short validation message. -/
def tooShortMsg : String := "Input too short (minimum 3 characters)"

/-- The too-long validation message. -/
def tooLongMsg : String := "Input too long (maximum 500 characters)"

/-- Embedding of `QuoteRequest._validate_input`: errors carry
(message, field). -/
def validateInput : PyInput → Except (String × String) String
  | .absent => .error ("Input is required", "input")
  | .nonStr => .error ("Input must be a string", "input")
  | .str s =>
    let cleaned := pyStrip s
    if cleaned.length = 0 then .error (tooShortMsg, "input")
    else if cleaned.length < 3 then .error (tooShortMsg, "input")
    else if 500 < cleaned.length then .error (tooLongMsg, "input")
    else .ok cleaned

/-- The four valid style literals. -/
def validStyles : List String := ["inspirational", "practical", "philosophical", "humorous"]

/-- Embedding of `QuoteRequest._validate_style`. -/
def validateStyle : PyInput → Except (String × String) String
  | .absent => .ok "inspirational"
  | .nonStr => .error ("Style must be a string", "style")
  | .str s =>
    if s ∈ validStyles then .ok s
    else .error ("Invalid style. Must be one of: inspirational, practical, philosophical, humorous", "style")

/-! ## src/lib/api/rate_limiter.py — the budget-based rate limiter

The per-IP timestamp queues are wall-clock state; `check_quota` only reads
them through the derived rolling hour/minute counts, which therefore enter
the embedding as explicit arguments. The `retry_after`/`quota_reset` fields
and the `cost_info` snapshot of a decision are wall-clock displays no claim
references and are omitted from the decision record. Dollar amounts (exact
decimals in the source) are embedded as rationals; `int(x)` on floats is
truncation toward zero, and `int(limit * 2.0)` on these small integers is
exactly `limit * 2`. -/

/-- The limiter state: configuration, derived quotas, and the global
counters. -/
structure RateLimiterState where
  dailyBudgetUsd : ℚ
  costPerQuote : ℚ
  maxQuotesPerDay : ℕ
  maxQuotesPerHour : ℕ
  maxQuotesPerMinute : ℕ
  maxQuotesPerIpHour : ℕ
  maxQuotesPerIpMinute : ℕ
  globalDailyCount : ℕ
  globalHourlyCount : ℕ
  dailyCostUsd : ℚ
deriving DecidableEq

/-- Embedding of `BudgetBasedRateLimiter.__init__` with the environment
overrides as arguments (defaults `1.00` and `50`); `cost_per_quote` is the
literal `0.00045 = 9/20000`. -/
def initRateLimiter (budget : ℚ) (ipHourLimit : ℕ) : RateLimiterState :=
  let costPerQuote : ℚ := mkRat 9 20000
  let maxDay := (ratDivTrunc budget costPerQuote).toNat
  let maxHour := maxDay / 24
  let maxMinute := max 2 (maxHour / 60)
  let ipMinute := max 1 (min 5 (ipHourLimit / 60))
  ⟨budget, costPerQuote, maxDay, maxHour, maxMinute, ipHourLimit, ipMinute, 0, 0, 0⟩

/-- The limiter built from the default configuration. -/
def defaultRateLimiter : RateLimiterState := initRateLimiter 1 50

/-- The fixed AI-agent user-agent substrings. -/
def aiAgentPatterns : List String :=
  ["claudedesktop", "mcp", "openai", "anthropic", "gpt", "chatgpt", "assistant", "bot"]

/-- Embedding of `_is_ai_agent`: empty user agents are never agents; otherwise
case-insensitive substring match against the pattern list. -/
def isAiAgent (userAgent : String) : Bool :=
  if userAgent = "" then false
  else aiAgentPatterns.any (fun p => listInfixOf p.data (pyLower userAgent).data)

/-- The effective per-IP hourly limit for a client (AI agents get the 2.0
multiplier). -/
def effectiveIpHourLimit (st : RateLimiterState) (userAgent : String) : ℕ :=
  if isAiAgent userAgent then st.maxQuotesPerIpHour * 2 else st.maxQuotesPerIpHour

/-- The effective per-IP minute limit for a client. -/
def effectiveIpMinuteLimit (st : RateLimiterState) (userAgent : String) : ℕ :=
  if isAiAgent userAgent then st.maxQuotesPerIpMinute * 2 else st.maxQuotesPerIpMinute

/-- The `reason` literals a quota decision can carry. -/
inductive QuotaReason
  | dailyBudgetExceeded
  | dailyQuotaExceeded
  | hourlyQuotaExceeded
  | ipHourlyLimitExceeded
  | ipMinuteLimitExceeded
  | quotaAvailable
deriving DecidableEq

/-- A quota decision: the `allowed` flag, the reason, and the remaining
daily/hourly allowances (floored at zero by truncated subtraction, as
`max(0, ...)` does in the source). -/
structure QuotaDecision where
  allowed : Bool
  reason : QuotaReason
  remainingToday : ℕ
  remainingThisHour : ℕ
deriving DecidableEq

/-- Embedding of `check_quota`, the decision cascade in source order. The
rolling per-IP hour/minute counts are the values `_get_ip_request_counts`
derives from the timestamp queue at call time. -/
def checkQuota (st : RateLimiterState) (userAgent : String)
    (ipHourCount ipMinuteCount : ℕ) : QuotaDecision :=
  if st.dailyBudgetUsd ≤ st.dailyCostUsd then
    ⟨false, .dailyBudgetExceeded, 0, 0⟩
  else if st.maxQuotesPerDay ≤ st.globalDailyCount then
    ⟨false, .dailyQuotaExceeded, 0, st.maxQuotesPerHour - st.globalHourlyCount⟩
  else if st.maxQuotesPerHour ≤ st.globalHourlyCount then
    ⟨false, .hourlyQuotaExceeded, st.maxQuotesPerDay - st.globalDailyCount, 0⟩
  else if effectiveIpHourLimit st userAgent ≤ ipHourCount then
    ⟨false, .ipHourlyLimitExceeded, st.maxQuotesPerDay - st.globalDailyCount,
     st.maxQuotesPerHour - st.globalHourlyCount⟩
  else if effectiveIpMinuteLimit st userAgent ≤ ipMinuteCount then
    ⟨false, .ipMinuteLimitExceeded, st.maxQuotesPerDay - st.globalDailyCount,
     st.maxQuotesPerHour - st.globalHourlyCount⟩
  else
    ⟨true, .quotaAvailable, st.maxQuotesPerDay - st.globalDailyCount - 1,
     st.maxQuotesPerHour - st.globalHourlyCount - 1⟩

/-- Embedding of `record_request`: bump both global counters and add the given
cost (default: the per-quote cost). The per-IP timestamp append is wall-clock
state outside the model. -/
def recordRequest (st : RateLimiterState) (costUsd : Option ℚ) : RateLimiterState :=
  { st with
    globalDailyCount := st.globalDailyCount + 1
    globalHourlyCount := st.globalHourlyCount + 1
    dailyCostUsd := st.dailyCostUsd + costUsd.getD st.costPerQuote }

/-! ## src/models.py and src/routes.py — the two other hash call sites -/

/-- Embedding of `QuoteCache.get_hash(user_input)`:
`sha256(user_input.strip().lower().encode()).hexdigest()`. -/
def quoteCacheGetHash (s : String) : String :=
  sha256HexOfString (pyLower (pyStrip s))

/-- The hash the `/shift` web route computes: `user_input` arrives already
stripped by the route, so the digest is over the trim-only form,
`sha256(user_input.encode()).hexdigest()`. -/
def shiftRouteHash (s : String) : String :=
  sha256HexOfString (pyStrip s)

/-! ## src/lib/api/wisdom_service.py — the Wisdom Service Facade

The database is an oracle in two views: `hashDb` answers the
`filter_by(input_hash=...)` lookup with an already-JSON-decoded row (a row
whose stored JSON fails to decode is answered as absent, matching the
swallowed exception), and an id-keyed `Int → Option (List Quote)` map answers
`QuoteCache.query.get` for the composite-id retrieval path. Elapsed-time
fields (`processing_time_ms`) are wall clock and embedded as `none`. -/

/-- Embedding of `WisdomService._create_input_hash` (applied to the already
validated, hence stripped, input). -/
def createInputHash (s : String) : String :=
  sha256HexOfString s

/-- A cache row for the hash-keyed view: its id and its decoded quote list. -/
structure CacheRow where
  id : Int
  quotes : List Quote

/-- Python `str(i)` for the embedded integers. -/
def intRepr (i : Int) : String :=
  if i < 0 then "-" ++ Nat.repr (-i).toNat else Nat.repr i.toNat

/-- Embedding of `_get_cached_quote_by_hash`: a present row with a non-empty
quote list yields its first quote and the composite id `"{row.id}_0"`. -/
def getCachedQuoteByHash (hashDb : String → Option CacheRow) (inputHash : String) :
    Option (Quote × String) :=
  match hashDb inputHash with
  | none => none
  | some row =>
    match row.quotes with
    | [] => none
    | q :: _ => some (q, intRepr row.id ++ "_0")

/-- Embedding of `QuoteCache.query.get(cache_id)` with its string primary key: the key is
coerced to an integer (a non-numeric key raises, which the callers catch into
a not-found). -/
def dbGetById (db : Int → Option (List Quote)) (cacheId : String) : Option (List Quote) :=
  (pyInt cacheId).bind db

/-- Embedding of `_get_cached_quote_by_cache_id`: row lookup, the
`quote_index >= len(quotes_data)` bounds check, then Python list indexing
(an `IndexError` is caught into a not-found). Only the `legacy_data`
component of the returned dict is ever read by callers, so the result is the
selected quote. -/
def getCachedQuoteByCacheId (db : Int → Option (List Quote)) (cacheId : String)
    (quoteIndex : Int) : Option Quote :=
  match dbGetById db cacheId with
  | none => none
  | some quotesData =>
    if (quotesData.length : Int) ≤ quoteIndex then none
    else pyIndex quotesData quoteIndex

/-- Embedding of `WisdomService.get_cached_quote(quote_id)`: first-underscore
split, `int(...)` on the right part (a `ValueError` is caught into `none`),
retrieval by cache id and index, and conversion with the default style and no
processing time. -/
def getCachedQuote (db : Int → Option (List Quote)) (quoteId : String) : Option WisdomQuote :=
  match splitOnce quoteId.data with
  | none => none
  | some (cid, qidx) =>
    match pyInt (String.mk qidx) with
    | none => none
    | some i =>
      match getCachedQuoteByCacheId db (String.mk cid) i with
      | none => none
      | some legacy => some (fromLegacyResponse legacy quoteId "inspirational" none)

/-- Embedding of `_estimate_openai_cost` (gpt-4o-mini pricing:
`0.000150 = 3/20000` per 1K input tokens, `0.000600 = 3/5000` per 1K output
tokens). -/
def estimateOpenaiCost (inputText : String) (quotes : List Quote) : ℚ :=
  let inputTokens := wordCount inputText + 150
  let outputTokens :=
    (quotes.map (fun q => wordCount (q.quote ++ q.attribution ++ q.perspective ++ q.context))).sum
  (inputTokens : ℚ) / 1000 * (3 / 20000) + (outputTokens : ℚ) / 1000 * (3 / 5000)

/-- The typed errors `generate_quote` can raise. -/
inductive ApiErrorKind
  | validationError (message field : String)
  | serviceUnavailableError (message : String)
deriving DecidableEq

/-- The external world of one `generate_quote` call: the hash-keyed cache
view, the outcome of the external LLM call should it be issued, and the row
id the cache write would return (`0` models a swallowed write failure). -/
structure GenEnv where
  hashDb : String → Option CacheRow
  llm : LlmOutcome
  newCacheId : Int

/-- Result of one `generate_quote` call with the external-call effect made
observable: the returned quote or raised error, whether the external LLM
completion service was invoked, and the rate limiter state afterwards. -/
structure GenerateResult where
  result : Except ApiErrorKind WisdomQuote
  llmCalled : Bool
  limiter : Option RateLimiterState

/-- Embedding of `WisdomService.generate_quote`: validation, hash-keyed cache
lookup, on a miss the legacy engine call, cache write, cost accounting via
`record_request` (when a limiter is attached and `track_cost` holds), and
conversion of the first quote under composite id `"{cache_id}_0"`. The
empty-engine-result guard re-raises through the broad handler as the
service-unavailable message built there. -/
def generateQuote (env : GenEnv) (limiter : Option RateLimiterState)
    (inputText style _clientIp _userAgent : String) (trackCost : Bool) : GenerateResult :=
  match validateInput (.str inputText) with
  | .error e => ⟨.error (.validationError e.1 e.2), false, limiter⟩
  | .ok validatedInput =>
    match validateStyle (.str style) with
    | .error e => ⟨.error (.validationError e.1 e.2), false, limiter⟩
    | .ok validatedStyle =>
      let inputHash := createInputHash validatedInput
      match getCachedQuoteByHash env.hashDb inputHash with
      | some (legacy, quoteId) =>
        ⟨.ok (fromLegacyResponse legacy quoteId validatedStyle none), false, limiter⟩
      | none =>
        match getWisdomQuotes env.llm validatedInput with
        | [] =>
          ⟨.error (.serviceUnavailableError
              "Quote generation service temporarily unavailable: No quotes generated from OpenAI service"),
           true, limiter⟩
        | first :: rest =>
          let cost := estimateOpenaiCost validatedInput (first :: rest)
          let limiterAfter :=
            if trackCost then limiter.map (fun st => recordRequest st (some cost)) else limiter
          let quoteId := intRepr env.newCacheId ++ "_0"
          ⟨.ok (fromLegacyResponse first quoteId validatedStyle none), true, limiterAfter⟩

/-! ## src/lib/mcp/tools.py — the MCP generate_wisdom_quote tool handler -/

/-- The tool parameters as the handler reads them
(`parameters.get("user_input", "")`, `parameters.get("style",
"inspirational")`). -/
structure McpParams where
  userInput : Option String
  style : Option String

/-- The bounds checks the handler performs itself on `user_input` before
calling the facade (lines 140–151 of the source). -/
def mcpValidateUserInput (raw : Option String) : Except String String :=
  let userInput := pyStrip (raw.getD "")
  if userInput = "" then .error "user_input is required"
  else if userInput.length < 3 then .error "user_input must be at least 3 characters"
  else if 500 < userInput.length then .error "user_input must be 500 characters or less"
  else .ok userInput

/-- Result of the `generate_wisdom_quote` tool with the external-call effect
observable: the `"Error: ..."` text when the handler answered with
`_error_response`, whether the external LLM service was invoked, the limiter
state afterwards, and the generated quote on success. -/
structure McpGenerateResult where
  errorText : Option String
  llmCalled : Bool
  limiter : Option RateLimiterState
  quote : Option WisdomQuote

/-- Embedding of `MCPToolHandler._handle_generate_wisdom_quote`: its own
bounds and style checks, then `generate_quote` with the fixed client identity
`127.0.0.1` / `ClaudeDesktop/MCP` and cost tracking on. No quota check is
performed anywhere on this path. -/
def handleGenerateWisdomQuote (env : GenEnv) (limiter : Option RateLimiterState)
    (params : McpParams) : McpGenerateResult :=
  match mcpValidateUserInput params.userInput with
  | .error msg => ⟨some ("Error: " ++ msg), false, limiter, none⟩
  | .ok userInput =>
    let style := params.style.getD "inspirational"
    if style ∈ validStyles then
      let g := generateQuote env limiter userInput style "127.0.0.1" "ClaudeDesktop/MCP" true
      match g.result with
      | .ok w => ⟨none, g.llmCalled, g.limiter, some w⟩
      | .error (.validationError m _) =>
        ⟨some ("Error: Validation error: " ++ m), g.llmCalled, g.limiter, none⟩
      | .error (.serviceUnavailableError m) =>
        ⟨some ("Error: Service unavailable: " ++ m), g.llmCalled, g.limiter, none⟩
    else
      ⟨some "Error: Invalid style. Must be: inspirational, practical, philosophical, or humorous",
       false, limiter, none⟩

/-! ## src/routes.py — the share route, sharing the composite-id logic -/

/-- What the `/share/<quote_id>` route does: every malformed, missing or
out-of-range case flashes an error and redirects home; otherwise it renders
the share page for the selected quote. -/
inductive ShareResult
  | redirectHome
  | page (q : Quote) (quoteId : String)
deriving DecidableEq

/-- Embedding of `share_quote(quote_id)`: the same first-underscore split,
`int(...)` parse, row lookup, `quote_index >= len` bounds check and Python
indexing as the facade retrieval path (exceptions caught into the
redirect). -/
def shareQuote (db : Int → Option (List Quote)) (quoteId : String) : ShareResult :=
  match splitOnce quoteId.data with
  | none => .redirectHome
  | some (cid, qidx) =>
    match pyInt (String.mk qidx) with
    | none => .redirectHome
    | some i =>
      match dbGetById db (String.mk cid) with
      | none => .redirectHome
      | some quotesData =>
        if (quotesData.length : Int) ≤ i then .redirectHome
        else
          match pyIndex quotesData i with
          | none => .redirectHome
          | some q => .page q quoteId

/-! ## src/image_generator.py — the route-level image response -/

/-- Outcome of `create_share_image_buffer` (PIL rendering is an external
effect): the PNG bytes, or a raise for any reason. -/
inductive RenderOutcome
  | ok (png : List Nat)
  | raises

/-- A Flask `Response` as the route builds it: body bytes, mimetype, and the
extra headers passed explicitly. -/
structure FlaskResponse where
  body : List Nat
  mimetype : String
  headers : List (String × String)
deriving DecidableEq

/-- The 1×1 transparent PNG byte literal of the fallback branch, byte for
byte. -/
def fallbackPng : List Nat :=
  [0x89, 0x50, 0x4e, 0x47, 0x0d, 0x0a, 0x1a, 0x0a,
   0x00, 0x00, 0x00, 0x0d, 0x49, 0x48, 0x44, 0x52,
   0x00, 0x00, 0x00, 0x01, 0x00, 0x00, 0x00, 0x01,
   0x08, 0x06, 0x00, 0x00, 0x00, 0x1f, 0x15, 0xc4,
   0x89, 0x00, 0x00, 0x00, 0x0b, 0x49, 0x44, 0x41,
   0x54, 0x78, 0xda, 0x62, 0x00, 0x00, 0x00, 0x02,
   0x00, 0x01, 0xe5, 0x27, 0xde, 0xfc, 0x00, 0x00,
   0x00, 0x00, 0x49, 0x45, 0x4e, 0x44, 0xae, 0x42,
   0x60, 0x82]

/-- Embedding of `create_share_image_route`: on success the rendered bytes
with the caching and disposition headers; on any rendering exception the
fixed fallback PNG with mimetype `image/png`. -/
def createShareImageRoute (render : RenderOutcome) : FlaskResponse :=
  match render with
  | .ok bytes =>
    ⟨bytes, "image/png",
     [("Content-Type", "image/png"),
      ("Cache-Control", "public, max-age=31536000, immutable"),
      ("Content-Disposition", "inline; filename=\x22quote.png\x22")]⟩
  | .raises => ⟨fallbackPng, "image/png", []⟩

/-! ## Supporting lemmas -/

/-- A string is in stripped form when stripping it again changes nothing. -/
def quoteTrimmed (q : Quote) : Prop :=
  pyStrip q.quote = q.quote ∧ pyStrip q.attribution = q.attribution ∧
  pyStrip q.perspective = q.perspective ∧ pyStrip q.context = q.context

theorem dropWhile_idem (p : Char → Bool) (l : List Char) :
    (l.dropWhile p).dropWhile p = l.dropWhile p := by
  induction l with
  | nil => rfl
  | cons c t ih =>
    by_cases h : p c
    · simp [List.dropWhile_cons, h, ih]
    · simp [List.dropWhile_cons, h]

theorem exists_append_dropWhile (p : Char → Bool) (l : List Char) :
    ∃ u, l = u ++ l.dropWhile p := by
  induction l with
  | nil => exact ⟨[], rfl⟩
  | cons c t ih =>
    by_cases h : p c
    · obtain ⟨u, hu⟩ := ih
      exact ⟨c :: u, by simp [List.dropWhile_cons, h]; exact hu⟩
    · exact ⟨[], by simp [List.dropWhile_cons, h]⟩

theorem dropWhile_eq_self_of_headFalse (p : Char → Bool) (l : List Char)
    (h : ∀ c, l.head? = some c → p c = false) : l.dropWhile p = l := by
  cases l with
  | nil => rfl
  | cons c t => simp [List.dropWhile_cons, h c rfl]

theorem length_dropWhile_le' (p : Char → Bool) (l : List Char) :
    (l.dropWhile p).length ≤ l.length := by
  induction l with
  | nil => simp
  | cons c t ih =>
    by_cases h : p c
    · simp [List.dropWhile_cons, h]; omega
    · simp [List.dropWhile_cons, h]

theorem headFalse_of_dropWhile_eq_self (p : Char → Bool) (l : List Char)
    (h : l.dropWhile p = l) : ∀ c, l.head? = some c → p c = false := by
  intro c hc
  cases l with
  | nil => simp at hc
  | cons a t =>
    simp at hc
    subst hc
    by_contra hp
    simp [List.dropWhile_cons, Bool.of_not_eq_false hp] at h
    have := length_dropWhile_le' p t
    have hlen := congrArg List.length h
    simp at hlen
    omega

theorem stripSegment_dropWhile_eq_self (p : Char → Bool) (A : List Char)
    (hAself : A.dropWhile p = A) :
    ((A.reverse.dropWhile p).reverse).dropWhile p = (A.reverse.dropWhile p).reverse := by
  apply dropWhile_eq_self_of_headFalse
  intro c hc
  obtain ⟨u, hu⟩ := exists_append_dropWhile p A.reverse
  have hv : A = (A.reverse.dropWhile p).reverse ++ u.reverse := by
    conv_lhs => rw [← List.reverse_reverse A, hu]
    simp
  have hAhead : A.head? = some c := by
    rw [hv]
    cases hE : (A.reverse.dropWhile p).reverse with
    | nil => rw [hE] at hc; simp at hc
    | cons b bs =>
      rw [hE] at hc
      simp at hc
      simpa using hc
  exact headFalse_of_dropWhile_eq_self p A hAself c hAhead

theorem pyStripList_idem (l : List Char) :
    pyStripList (pyStripList l) = pyStripList l := by
  unfold pyStripList
  rw [stripSegment_dropWhile_eq_self pyWhitespace (l.dropWhile pyWhitespace)
        (dropWhile_idem pyWhitespace l)]
  rw [List.reverse_reverse, dropWhile_idem]

theorem pyStrip_idem (s : String) : pyStrip (pyStrip s) = pyStrip s := by
  unfold pyStrip
  exact congrArg String.mk (pyStripList_idem s.data)

theorem stripQuoteFields_trimmed (r : RawQuote) (q : Quote)
    (h : stripQuoteFields r = some q) : quoteTrimmed q := by
  unfold stripQuoteFields at h
  cases hq : r.quote with
  | none => rw [hq] at h; exact absurd h (by simp)
  | some a =>
    cases hat : r.attribution with
    | none => rw [hq, hat] at h; exact absurd h (by simp)
    | some b =>
      cases hp : r.perspective with
      | none => rw [hq, hat, hp] at h; exact absurd h (by simp)
      | some c =>
        cases hc : r.context with
        | none => rw [hq, hat, hp, hc] at h; exact absurd h (by simp)
        | some d =>
          rw [hq, hat, hp, hc] at h
          simp at h
          subst h
          exact ⟨pyStrip_idem a, pyStrip_idem b, pyStrip_idem c, pyStrip_idem d⟩

instance (q : Quote) : Decidable (quoteTrimmed q) := by
  unfold quoteTrimmed
  exact inferInstance

set_option maxRecDepth 40000 in
theorem fallback_trimmed : ∀ q ∈ fallbackQuotes, quoteTrimmed q := by decide

/-- A string with no underscore character. -/
def noUnderscore (s : String) : Prop := ∀ c ∈ s.data, c ≠ '_'

instance (s : String) : Decidable (noUnderscore s) := by
  unfold noUnderscore
  exact inferInstance

theorem splitOnce_append (a b : List Char) (h : ∀ c ∈ a, c ≠ '_') :
    splitOnce (a ++ '_' :: b) = some (a, b) := by
  induction a with
  | nil => simp [splitOnce]
  | cons c t ih =>
    have hc : c ≠ '_' := h c (by simp)
    have ht : ∀ x ∈ t, x ≠ '_' := fun x hx => h x (by simp [hx])
    show splitOnce (c :: (t ++ '_' :: b)) = some (c :: t, b)
    rw [splitOnce, if_neg hc, ih ht]

theorem map_lowerChar_ne_of_any (l : List Char)
    (h : l.any (fun c => lowerChar c != c) = true) : l.map lowerChar ≠ l := by
  induction l with
  | nil => simp at h
  | cons c t ih =>
    simp only [List.any_cons, Bool.or_eq_true] at h
    intro heq
    simp only [List.map_cons, List.cons.injEq] at heq
    rcases h with h | h
    · exact absurd heq.1 (by simpa using h)
    · exact ih h heq.2

theorem map_lowerChar_eq_of_not_any (l : List Char)
    (h : l.any (fun c => lowerChar c != c) = false) : l.map lowerChar = l := by
  induction l with
  | nil => rfl
  | cons c t ih =>
    simp only [List.any_cons, Bool.or_eq_false_iff] at h
    simp only [List.map_cons]
    have hc : lowerChar c = c := by simpa using h.1
    rw [hc, ih h.2]

theorem dropWhile_replicate_of_false {α : Type} (p : α → Bool) (a : α) (n : Nat)
    (h : p a = false) : (List.replicate n a).dropWhile p = List.replicate n a := by
  cases n with
  | zero => rfl
  | succ m => simp [List.replicate_succ, List.dropWhile_cons, h]

theorem pyStrip_replicate_a (n : Nat) :
    pyStrip (String.mk (List.replicate n 'a')) = String.mk (List.replicate n 'a') := by
  unfold pyStrip pyStripList
  have hfa : pyWhitespace 'a' = false := by decide
  rw [show (String.mk (List.replicate n 'a')).data = List.replicate n 'a' from rfl]
  rw [dropWhile_replicate_of_false _ _ _ hfa, List.reverse_replicate,
      dropWhile_replicate_of_false _ _ _ hfa, List.reverse_replicate]

/-- Collision-freeness of the external digest at one specific pair of
inputs: equal digests force equal inputs. For a concrete pair of distinct
strings this is decided by computing both digests; universally over all
strings it is the standard cryptographic assumption about SHA-256, which
enters theorems only as a hypothesis, never as an axiom. -/
def noCollisionAt (a b : String) : Prop :=
  sha256HexOfString a = sha256HexOfString b → a = b

/-! ## The claims -/

/-- C6 — Budget math: with the default configuration (daily budget 1.00 USD,
cost per quote 0.00045 USD), the derived limiter constants are
maxQuotesPerDay = 2222, maxQuotesPerHour = 92, and maxQuotesPerMinute ≥ 2,
computed as trunc(budget/cost), floor-div by 24, and max(2, floor-div by
60). -/
theorem budget_math_defaults :
    defaultRateLimiter.maxQuotesPerDay = 2222 ∧
    defaultRateLimiter.maxQuotesPerHour = 92 ∧
    2 ≤ defaultRateLimiter.maxQuotesPerMinute := by
  decide

/-- C5 — Rate-limiter priority ordering: in any limiter state whose
accumulated daily cost has reached the daily budget while the calling IP has
also reached its effective per-IP minute limit, `check_quota` denies with
reason DAILY_BUDGET_EXCEEDED — never IP_MINUTE_LIMIT_EXCEEDED — because the
global budget check is the first test of the cascade. -/
theorem rate_limiter_budget_priority
    (st : RateLimiterState) (userAgent : String) (ipHourCount ipMinuteCount : ℕ)
    (hBudget : st.dailyBudgetUsd ≤ st.dailyCostUsd)
    (_hMinute : effectiveIpMinuteLimit st userAgent ≤ ipMinuteCount) :
    (checkQuota st userAgent ipHourCount ipMinuteCount).reason = QuotaReason.dailyBudgetExceeded ∧
    (checkQuota st userAgent ipHourCount ipMinuteCount).reason ≠ QuotaReason.ipMinuteLimitExceeded ∧
    (checkQuota st userAgent ipHourCount ipMinuteCount).allowed = false := by
  unfold checkQuota
  rw [if_pos hBudget]
  exact ⟨rfl, by decide, rfl⟩

/-- Witness for C5: a concrete state with the budget spent and the per-IP
minute count at its limit is denied with the budget reason. -/
theorem rate_limiter_budget_priority_witness :
    (checkQuota { defaultRateLimiter with dailyCostUsd := 1 } "curl/8.0" 50 5).reason =
      QuotaReason.dailyBudgetExceeded ∧
    (checkQuota { defaultRateLimiter with dailyCostUsd := 1 } "curl/8.0" 50 5).reason ≠
      QuotaReason.ipMinuteLimitExceeded ∧
    (checkQuota { defaultRateLimiter with dailyCostUsd := 1 } "curl/8.0" 50 5).allowed = false :=
  rate_limiter_budget_priority { defaultRateLimiter with dailyCostUsd := 1 }
    "curl/8.0" 50 5 (by decide) (by decide)

/-- C9 — Image-renderer fallback: the route-level image operation is total:
every outcome yields a response with mimetype image/png; when the underlying
PNG composition raises, the body is the fixed, non-empty 1×1 transparent PNG
literal; on success the body is the rendered bytes with the one-year
immutable caching and inline disposition headers. -/
theorem image_route_never_raises (render : RenderOutcome) :
    (createShareImageRoute render).mimetype = "image/png" ∧
    (render = RenderOutcome.raises →
      (createShareImageRoute render).body = fallbackPng ∧ fallbackPng ≠ []) ∧
    (∀ bytes, render = RenderOutcome.ok bytes →
      (createShareImageRoute render).body = bytes ∧
      ("Cache-Control", "public, max-age=31536000, immutable") ∈ (createShareImageRoute render).headers ∧
      ("Content-Disposition", "inline; filename=\x22quote.png\x22") ∈ (createShareImageRoute render).headers) := by
  cases render with
  | ok bytes =>
    refine ⟨rfl, ?_, ?_⟩
    · intro h
      cases h
    · intro b hb
      cases hb
      exact ⟨rfl, by simp [createShareImageRoute], by simp [createShareImageRoute]⟩
  | raises =>
    refine ⟨rfl, ?_, ?_⟩
    · intro _
      exact ⟨rfl, by decide⟩
    · intro b hb
      cases hb

/-- Witness for C9: the failure outcome serves the fallback PNG bytes and the
success outcome serves the rendered bytes. -/
theorem image_route_never_raises_witness :
    (createShareImageRoute RenderOutcome.raises).body = fallbackPng ∧ fallbackPng ≠ [] ∧
    (createShareImageRoute (RenderOutcome.ok [137])).body = [137] :=
  ⟨((image_route_never_raises RenderOutcome.raises).2.1 rfl).1,
   ((image_route_never_raises RenderOutcome.raises).2.1 rfl).2,
   ((image_route_never_raises (RenderOutcome.ok [137])).2.2 [137] rfl).1⟩

/-- The concrete `WisdomQuote` refuting the claimed MCP projection shape. -/
def c8Quote : WisdomQuote :=
  ⟨"1_0", "Be here now", "Ram Dass", "Presence reframes it.", "Said in 1971.",
   "inspirational", none⟩

/-- C8 counterexample — the claim is false on the code: the text block of
`to_mcp_response` does NOT enclose the quote in double quotation marks, and
its metadata sidecar does NOT carry a creation timestamp. -/
theorem mcp_projection_claim_false :
    (toMcpResponse c8Quote).text ≠
      "\x22" ++ c8Quote.quote ++ "\x22" ++ "\n\n— " ++ c8Quote.attribution ∧
    (toMcpResponse c8Quote).metadata.lookup "created_at" = none := by
  decide

/-- C8 amended — MCP projection shape as the code has it: for every
WisdomQuote the projection is a text block whose text is the bare quote text,
a blank line and an em-dash-prefixed attribution, and whose metadata sidecar
carries the quote id, the four text fields and the image URL — with no
creation timestamp. -/
theorem mcp_projection_shape (w : WisdomQuote) :
    (toMcpResponse w).typ = "text" ∧
    (toMcpResponse w).text = w.quote ++ "\n\n— " ++ w.attribution ∧
    (toMcpResponse w).metadata =
      [("quote_id", w.quoteId), ("quote", w.quote), ("attribution", w.attribution),
       ("perspective", w.perspective), ("context", w.context),
       ("image_url", "https://app.vercel.app/api/v1/images/" ++ w.quoteId)] ∧
    (toMcpResponse w).metadata.lookup "created_at" = none :=
  ⟨rfl, rfl, rfl, rfl⟩

/-- C4 — Hash-normalization divergence: the Data Model hash digests the
trimmed-and-lowercased input while the Facade and the legacy /shift route
digest the trim-only input; the three agree whenever the trimmed form has no
upper-case letter, and when it has one the two normalization rules feed
SHA-256 different strings — hence (absent a SHA-256 collision at that very
pair) different digests. -/
theorem hash_normalization_divergence (s : String) :
    (hasUpper (pyStrip s) = false →
       quoteCacheGetHash s = shiftRouteHash s ∧
       quoteCacheGetHash s = createInputHash (pyStrip s)) ∧
    (hasUpper (pyStrip s) = true →
       pyLower (pyStrip s) ≠ pyStrip s ∧
       (noCollisionAt (pyLower (pyStrip s)) (pyStrip s) →
          quoteCacheGetHash s ≠ shiftRouteHash s ∧
          quoteCacheGetHash s ≠ createInputHash (pyStrip s))) := by
  constructor
  · intro h
    have hl : pyLower (pyStrip s) = pyStrip s := by
      unfold pyLower
      rw [map_lowerChar_eq_of_not_any _ h]
    constructor
    · unfold quoteCacheGetHash shiftRouteHash
      rw [hl]
    · unfold quoteCacheGetHash createInputHash
      rw [hl]
  · intro h
    have hne : pyLower (pyStrip s) ≠ pyStrip s := by
      intro heq
      exact map_lowerChar_ne_of_any _ h (congrArg String.data heq)
    refine ⟨hne, fun hnc => ⟨fun hdig => hne (hnc hdig), fun hdig => hne (hnc hdig)⟩⟩

/-- Witness for C4: on the input "  Hi there  " (trimmed form "Hi there",
which contains an upper-case letter) the two normalization rules feed SHA-256
different strings and the digests differ; both digests are computed
concretely, so the no-collision hypothesis is discharged by evaluation. -/
theorem hash_normalization_divergence_witness :
    pyLower (pyStrip "  Hi there  ") ≠ pyStrip "  Hi there  " ∧
    quoteCacheGetHash "  Hi there  " ≠ shiftRouteHash "  Hi there  " := by
  have h := (hash_normalization_divergence "  Hi there  ").2 (by decide)
  exact ⟨h.1, (h.2 (fun hd => absurd hd (by decide))).1⟩

/-- The failure conditions of the external call that the Wisdom Generation
Engine answers with the fallback quote set: the call threw, the body was
empty, the JSON decode failed, the top-level quotes key was absent, or zero
quotes survived field validation. -/
def llmFailed : LlmOutcome → Prop
  | .apiError => True
  | .response t d =>
    t = "" ∨ d = JsonDocOutcome.decodeError ∨ d = JsonDocOutcome.noQuotesKey ∨
    ∃ l, d = JsonDocOutcome.quotes l ∧ l.filterMap stripQuoteFields = []

theorem parseJsonResponse_decodeError (t : String) :
    parseJsonResponse t JsonDocOutcome.decodeError = fallbackQuotes := by
  unfold parseJsonResponse
  by_cases ht : t = "" <;> simp [ht]

theorem parseJsonResponse_noQuotesKey (t : String) :
    parseJsonResponse t JsonDocOutcome.noQuotesKey = fallbackQuotes := by
  unfold parseJsonResponse
  by_cases ht : t = "" <;> simp [ht]

theorem parseJsonResponse_quotes (t : String) (l : List RawQuote) :
    parseJsonResponse t (JsonDocOutcome.quotes l) =
      if t = "" then fallbackQuotes
      else if l.filterMap stripQuoteFields = [] then fallbackQuotes
      else (l.filterMap stripQuoteFields).take 3 := by
  unfold parseJsonResponse
  by_cases ht : t = ""
  · rw [if_pos ht]
  · rw [if_neg ht]

theorem parseJsonResponse_total (t : String) (d : JsonDocOutcome) :
    parseJsonResponse t d ≠ [] ∧ (parseJsonResponse t d).length ≤ 3 ∧
    ∀ q ∈ parseJsonResponse t d, quoteTrimmed q := by
  have hfb1 : fallbackQuotes ≠ [] := by decide
  have hfb2 : fallbackQuotes.length ≤ 3 := by decide
  cases d with
  | decodeError =>
    rw [parseJsonResponse_decodeError]
    exact ⟨hfb1, hfb2, fallback_trimmed⟩
  | noQuotesKey =>
    rw [parseJsonResponse_noQuotesKey]
    exact ⟨hfb1, hfb2, fallback_trimmed⟩
  | quotes l =>
    rw [parseJsonResponse_quotes]
    by_cases ht : t = ""
    · rw [if_pos ht]
      exact ⟨hfb1, hfb2, fallback_trimmed⟩
    · rw [if_neg ht]
      by_cases hv : l.filterMap stripQuoteFields = []
      · rw [if_pos hv]
        exact ⟨hfb1, hfb2, fallback_trimmed⟩
      · rw [if_neg hv]
        refine ⟨?_, ?_, ?_⟩
        · cases hl : l.filterMap stripQuoteFields with
          | nil => exact absurd hl hv
          | cons a as => simp [hl]
        · rw [List.length_take]
          omega
        · intro q hq
          obtain ⟨rq, _, hrq⟩ := List.mem_filterMap.mp (List.take_subset 3 _ hq)
          exact stripQuoteFields_trimmed rq q hrq

/-- C2 — the Wisdom Generation Engine never fails its caller: for every
outcome of the external call it returns a non-empty list of at most three
quotes with all four fields whitespace-trimmed, and on every documented
failure condition the result is exactly the fixed two-quote fallback set,
attributed to Alan Watts and then Viktor Frankl, in that order. -/
theorem wisdom_engine_never_fails (o : LlmOutcome) (input : String) :
    getWisdomQuotes o input ≠ [] ∧
    (getWisdomQuotes o input).length ≤ 3 ∧
    (∀ q ∈ getWisdomQuotes o input, quoteTrimmed q) ∧
    (llmFailed o → getWisdomQuotes o input = fallbackQuotes) ∧
    fallbackQuotes.map Quote.attribution = ["Alan Watts", "Viktor Frankl"] := by
  have hfb : fallbackQuotes.map Quote.attribution = ["Alan Watts", "Viktor Frankl"] := by decide
  cases o with
  | apiError =>
    refine ⟨?_, ?_, fallback_trimmed, fun _ => rfl, hfb⟩
    · show fallbackQuotes ≠ []
      decide
    · show fallbackQuotes.length ≤ 3
      decide
  | response t d =>
    obtain ⟨h1, h2, h3⟩ := parseJsonResponse_total t d
    refine ⟨h1, h2, h3, ?_, hfb⟩
    intro hf
    show parseJsonResponse t d = fallbackQuotes
    simp only [llmFailed] at hf
    rcases hf with hf | hf | hf | ⟨l, hd, hl⟩
    · cases d with
      | decodeError => exact parseJsonResponse_decodeError t
      | noQuotesKey => exact parseJsonResponse_noQuotesKey t
      | quotes l => rw [parseJsonResponse_quotes, if_pos hf]
    · subst hf
      exact parseJsonResponse_decodeError t
    · subst hf
      exact parseJsonResponse_noQuotesKey t
    · subst hd
      rw [parseJsonResponse_quotes]
      by_cases ht : t = ""
      · rw [if_pos ht]
      · rw [if_neg ht, if_pos hl]

/-- Witness for C2: a thrown external call is a failure condition, and the
result is the non-empty fallback set. -/
theorem wisdom_engine_never_fails_witness :
    llmFailed LlmOutcome.apiError ∧
    getWisdomQuotes LlmOutcome.apiError "deadline stress" = fallbackQuotes ∧
    getWisdomQuotes LlmOutcome.apiError "deadline stress" ≠ [] :=
  ⟨trivial,
   (wisdom_engine_never_fails LlmOutcome.apiError "deadline stress").2.2.2.1 trivial,
   (wisdom_engine_never_fails LlmOutcome.apiError "deadline stress").1⟩

theorem getCachedQuote_composite (db : Int → Option (List Quote)) (rs istr : String)
    (hno : noUnderscore rs) :
    getCachedQuote db (rs ++ "_" ++ istr) =
      match pyInt istr with
      | none => none
      | some i =>
        match getCachedQuoteByCacheId db rs i with
        | none => none
        | some legacy =>
          some (fromLegacyResponse legacy (rs ++ "_" ++ istr) "inspirational" none) := by
  unfold getCachedQuote
  rw [show (rs ++ "_" ++ istr).data = rs.data ++ '_' :: istr.data by simp,
      splitOnce_append _ _ hno]

theorem shareQuote_composite (db : Int → Option (List Quote)) (rs istr : String)
    (hno : noUnderscore rs) :
    shareQuote db (rs ++ "_" ++ istr) =
      match pyInt istr with
      | none => ShareResult.redirectHome
      | some i =>
        match dbGetById db rs with
        | none => ShareResult.redirectHome
        | some quotesData =>
          if (quotesData.length : Int) ≤ i then ShareResult.redirectHome
          else
            match pyIndex quotesData i with
            | none => ShareResult.redirectHome
            | some q => ShareResult.page q (rs ++ "_" ++ istr) := by
  unfold shareQuote
  rw [show (rs ++ "_" ++ istr).data = rs.data ++ '_' :: istr.data by simp,
      splitOnce_append _ _ hno]

/-- Evaluation of the facade retrieval on a well-formed composite id with a
present row: the bounds check followed by Python indexing. -/
theorem getCachedQuote_eval (db : Int → Option (List Quote)) (rs istr : String)
    (hno : noUnderscore rs) (j : ℤ) (hj : pyInt istr = some j)
    (row : List Quote) (hrow : dbGetById db rs = some row) :
    getCachedQuote db (rs ++ "_" ++ istr) =
      if (row.length : ℤ) ≤ j then none
      else
        match pyIndex row j with
        | none => none
        | some legacy =>
          some (fromLegacyResponse legacy (rs ++ "_" ++ istr) "inspirational" none) := by
  have hbyidx : getCachedQuoteByCacheId db rs j =
      if (row.length : ℤ) ≤ j then none else pyIndex row j := by
    unfold getCachedQuoteByCacheId
    rw [hrow]
  rw [getCachedQuote_composite db rs istr hno, hj]
  show (match getCachedQuoteByCacheId db rs j with
        | none => none
        | some legacy =>
          some (fromLegacyResponse legacy (rs ++ "_" ++ istr) "inspirational" none)) = _
  rw [hbyidx]
  by_cases hC : (row.length : ℤ) ≤ j
  · rw [if_pos hC, if_pos hC]
  · rw [if_neg hC, if_neg hC]

/-- Evaluation of the share route on a well-formed composite id with a
present row. -/
theorem shareQuote_eval (db : Int → Option (List Quote)) (rs istr : String)
    (hno : noUnderscore rs) (j : ℤ) (hj : pyInt istr = some j)
    (row : List Quote) (hrow : dbGetById db rs = some row) :
    shareQuote db (rs ++ "_" ++ istr) =
      if (row.length : ℤ) ≤ j then ShareResult.redirectHome
      else
        match pyIndex row j with
        | none => ShareResult.redirectHome
        | some q => ShareResult.page q (rs ++ "_" ++ istr) := by
  rw [shareQuote_composite db rs istr hno, hj]
  show (match dbGetById db rs with
        | none => ShareResult.redirectHome
        | some quotesData =>
          if (quotesData.length : Int) ≤ j then ShareResult.redirectHome
          else
            match pyIndex quotesData j with
            | none => ShareResult.redirectHome
            | some q => ShareResult.page q (rs ++ "_" ++ istr)) = _
  rw [hrow]

/-- C3 — Composite-id round-trip: for a cache row `r` holding `row`, a
composite id formed as the row id followed by an underscore and a decimal
index `i`, the retrieval path returns exactly the quote at position `i` of
the stored array when `i` is in range, and absent (never an out-of-range
read, never an exception) when `i ≥ row.length`. -/
theorem composite_id_roundtrip
    (db : Int → Option (List Quote)) (rs istr : String) (r : Int)
    (row : List Quote) (i : ℕ)
    (hno : noUnderscore rs) (hr : pyInt rs = some r) (hdb : db r = some row)
    (hi : pyInt istr = some (i : ℤ)) :
    (∀ q, row.get? i = some q →
       getCachedQuote db (rs ++ "_" ++ istr) =
         some (fromLegacyResponse q (rs ++ "_" ++ istr) "inspirational" none)) ∧
    (row.length ≤ i → getCachedQuote db (rs ++ "_" ++ istr) = none) := by
  have hbyid : dbGetById db rs = some row := by
    unfold dbGetById
    rw [hr]
    exact hdb
  constructor
  · intro q hq
    obtain ⟨hlt, _⟩ := List.get?_eq_some.mp hq
    have hpy : pyIndex row ((i : ℤ)) = some q := by
      unfold pyIndex
      rw [if_pos (by omega)]
      have htn : ((i : ℤ)).toNat = i := by omega
      rw [htn, hq]
    rw [getCachedQuote_eval db rs istr hno _ hi row hbyid,
        if_neg (by exact_mod_cast Nat.not_le.mpr hlt), hpy]
  · intro hle
    rw [getCachedQuote_eval db rs istr hno _ hi row hbyid,
        if_pos (by exact_mod_cast hle)]

/-- The concrete cache of the C3 witness: one row, id 7, two stored quotes. -/
def c3Db : Int → Option (List Quote) := fun n =>
  if n = 7 then
    some [⟨"first quote", "A One", "p1", "c1"⟩, ⟨"second quote", "B Two", "p2", "c2"⟩]
  else none

/-- Witness for C3: id "7_1" retrieves the quote at index 1 of row 7, and
id "7_2" (index equal to the array length) is absent. -/
theorem composite_id_roundtrip_witness :
    getCachedQuote c3Db "7_1" =
      some (fromLegacyResponse ⟨"second quote", "B Two", "p2", "c2"⟩ "7_1" "inspirational" none) ∧
    getCachedQuote c3Db "7_2" = none :=
  ⟨(composite_id_roundtrip c3Db "7" "1" 7
      [⟨"first quote", "A One", "p1", "c1"⟩, ⟨"second quote", "B Two", "p2", "c2"⟩] 1
      (by decide) (by decide) (by decide) (by decide)).1
      ⟨"second quote", "B Two", "p2", "c2"⟩ rfl,
   (composite_id_roundtrip c3Db "7" "2" 7
      [⟨"first quote", "A One", "p1", "c1"⟩, ⟨"second quote", "B Two", "p2", "c2"⟩] 2
      (by decide) (by decide) (by decide) (by decide)).2 (by decide)⟩

/-- C10 — Negative composite-id indices are not rejected: the bounds check
only rejects indices at or above the array length, so a negative decimal
index `-k` with 1 ≤ k ≤ length selects from the end of the array
(Python indexing), and the share route serves that same quote. In particular
index -1 yields the last stored quote. -/
theorem negative_index_serves_from_end
    (db : Int → Option (List Quote)) (rs istr : String) (r : Int)
    (row : List Quote) (k : ℕ)
    (hno : noUnderscore rs) (hr : pyInt rs = some r) (hdb : db r = some row)
    (hi : pyInt istr = some (-(k : ℤ))) (hk1 : 1 ≤ k) (hkL : k ≤ row.length) :
    ∀ q, row.get? (row.length - k) = some q →
      getCachedQuote db (rs ++ "_" ++ istr) =
        some (fromLegacyResponse q (rs ++ "_" ++ istr) "inspirational" none) ∧
      shareQuote db (rs ++ "_" ++ istr) = ShareResult.page q (rs ++ "_" ++ istr) := by
  intro q hq
  have hbyid : dbGetById db rs = some row := by
    unfold dbGetById
    rw [hr]
    exact hdb
  have hnotle : ¬ ((row.length : ℤ) ≤ -(k : ℤ)) := by omega
  have hpy : pyIndex row (-(k : ℤ)) = some q := by
    unfold pyIndex
    rw [if_neg (by omega), if_pos (by omega)]
    have htn : ((row.length : ℤ) + -(k : ℤ)).toNat = row.length - k := by omega
    rw [htn, hq]
  constructor
  · rw [getCachedQuote_eval db rs istr hno _ hi row hbyid, if_neg hnotle, hpy]
  · rw [shareQuote_eval db rs istr hno _ hi row hbyid, if_neg hnotle, hpy]

/-- The concrete cache of the C10 witness: one row, id 5, two stored
quotes. -/
def c10Db : Int → Option (List Quote) := fun n =>
  if n = 5 then
    some [⟨"front quote", "F", "pf", "cf"⟩, ⟨"last quote", "L", "pl", "cl"⟩]
  else none

/-- Witness for C10: the composite id "5_-1" does not come back absent — both
the facade retrieval and the share route serve the last stored quote of
row 5. -/
theorem negative_index_serves_from_end_witness :
    getCachedQuote c10Db "5_-1" =
      some (fromLegacyResponse ⟨"last quote", "L", "pl", "cl"⟩ "5_-1" "inspirational" none) ∧
    shareQuote c10Db "5_-1" =
      ShareResult.page ⟨"last quote", "L", "pl", "cl"⟩ "5_-1" :=
  negative_index_serves_from_end c10Db "5" "-1" 5
    [⟨"front quote", "F", "pf", "cf"⟩, ⟨"last quote", "L", "pl", "cl"⟩] 1
    (by decide) (by decide) (by decide) (by decide) (by decide) (by decide)
    ⟨"last quote", "L", "pl", "cl"⟩ rfl

/-- C7 — Validation boundaries: an input whose trimmed length is exactly 2 is
rejected as too short and one of trimmed length 501 as too long, while
trimmed lengths 3 and 500 are accepted — independently by the QuoteRequest
validation and by the MCP generate_wisdom_quote handler bounds checks. -/
theorem validation_boundaries (s : String) :
    ((pyStrip s).length = 2 →
       validateInput (PyInput.str s) = Except.error (tooShortMsg, "input") ∧
       mcpValidateUserInput (some s) = Except.error "user_input must be at least 3 characters") ∧
    ((pyStrip s).length = 3 →
       validateInput (PyInput.str s) = Except.ok (pyStrip s) ∧
       mcpValidateUserInput (some s) = Except.ok (pyStrip s)) ∧
    ((pyStrip s).length = 500 →
       validateInput (PyInput.str s) = Except.ok (pyStrip s) ∧
       mcpValidateUserInput (some s) = Except.ok (pyStrip s)) ∧
    ((pyStrip s).length = 501 →
       validateInput (PyInput.str s) = Except.error (tooLongMsg, "input") ∧
       mcpValidateUserInput (some s) = Except.error "user_input must be 500 characters or less") := by
  have hne : ∀ n : ℕ, (pyStrip s).length = n → n ≠ 0 → ¬ (pyStrip s = "") := by
    intro n hn hnz h
    rw [h] at hn
    exact hnz (by simpa using hn.symm)
  refine ⟨?_, ?_, ?_, ?_⟩ <;> intro hlen
  · exact ⟨by simp [validateInput, hlen],
           by simp [mcpValidateUserInput, hne 2 hlen (by omega), hlen]⟩
  · exact ⟨by simp [validateInput, hlen],
           by simp [mcpValidateUserInput, hne 3 hlen (by omega), hlen]⟩
  · exact ⟨by simp [validateInput, hlen],
           by simp [mcpValidateUserInput, hne 500 hlen (by omega), hlen]⟩
  · exact ⟨by simp [validateInput, hlen],
           by simp [mcpValidateUserInput, hne 501 hlen (by omega), hlen]⟩

/-- Witness for C7: the four boundaries at concrete inputs — "ab" (trimmed
length 2), "abc" (3), and runs of 500 and 501 letters. -/
theorem validation_boundaries_witness :
    (validateInput (PyInput.str "ab") = Except.error (tooShortMsg, "input") ∧
     mcpValidateUserInput (some "ab") = Except.error "user_input must be at least 3 characters") ∧
    (validateInput (PyInput.str "abc") = Except.ok (pyStrip "abc") ∧
     mcpValidateUserInput (some "abc") = Except.ok (pyStrip "abc")) ∧
    (validateInput (PyInput.str (String.mk (List.replicate 500 'a'))) =
       Except.ok (pyStrip (String.mk (List.replicate 500 'a'))) ∧
     mcpValidateUserInput (some (String.mk (List.replicate 500 'a'))) =
       Except.ok (pyStrip (String.mk (List.replicate 500 'a')))) ∧
    (validateInput (PyInput.str (String.mk (List.replicate 501 'a'))) =
       Except.error (tooLongMsg, "input") ∧
     mcpValidateUserInput (some (String.mk (List.replicate 501 'a'))) =
       Except.error "user_input must be 500 characters or less") := by
  have h500 : (pyStrip (String.mk (List.replicate 500 'a'))).length = 500 := by
    rw [pyStrip_replicate_a]
    exact List.length_replicate 500 'a'
  have h501 : (pyStrip (String.mk (List.replicate 501 'a'))).length = 501 := by
    rw [pyStrip_replicate_a]
    exact List.length_replicate 501 'a'
  exact ⟨(validation_boundaries "ab").1 (by decide),
         (validation_boundaries "abc").2.1 (by decide),
         (validation_boundaries (String.mk (List.replicate 500 'a'))).2.2.1 h500,
         (validation_boundaries (String.mk (List.replicate 501 'a'))).2.2.2 h501⟩

/-- The external world of the C1 evidence: an empty cache, a fixed external
outcome, and a cache-write id. -/
def c1Env : GenEnv :=
  { hashDb := fun _ => none, llm := LlmOutcome.apiError, newCacheId := 1 }

/-- The limiter state of the C1 evidence: the default configuration with the
entire daily budget already spent. -/
def c1Limiter : RateLimiterState := { defaultRateLimiter with dailyCostUsd := 1 }

/-- The tool parameters of the C1 evidence. -/
def c1Params : McpParams :=
  { userInput := some "feeling stuck before a deadline", style := none }

/-- C1 evidence — the spending cap is NOT a hard bound on external LLM calls:
in a state whose accumulated daily cost has reached the daily budget (which
`check_quota` would deny with DAILY_BUDGET_EXCEEDED), both the MCP
generate_wisdom_quote tool and the facade `generate_quote` still issue the
external LLM call on a cache miss, because no code path on the quote
generation route ever invokes `check_quota`. -/
theorem budget_cap_not_enforced :
    c1Limiter.dailyBudgetUsd ≤ c1Limiter.dailyCostUsd ∧
    (checkQuota c1Limiter "ClaudeDesktop/MCP" 0 0).allowed = false ∧
    (checkQuota c1Limiter "ClaudeDesktop/MCP" 0 0).reason = QuotaReason.dailyBudgetExceeded ∧
    (handleGenerateWisdomQuote c1Env (some c1Limiter) c1Params).llmCalled = true ∧
    (handleGenerateWisdomQuote c1Env (some c1Limiter) c1Params).errorText = none ∧
    (generateQuote c1Env (some c1Limiter) "feeling stuck before a deadline" "inspirational"
        "127.0.0.1" "ClaudeDesktop/MCP" true).llmCalled = true := by
  decide

end PerspectiveShifter
